import Mathlib

/-!
Verification of the Vulkan-ValidationLayers repository slice: the
`core_error` Location / VUID-lookup subsystem
(`src/layers/error_message/core_error_location.h`), the generated KHR
safe-structure deep-copy library (`src/layers/generated/vk_safe_struct_khr.cpp`),
and the shared-memory positive test (`src/tests/positive/shaderval.cpp`).

Each definition is a shallow embedding of the corresponding C++ entity;
machine integers are modelled as `Nat`, pointers to borrowed memory as
functions or `Option`-wrapped values, and owned heap allocations as
`Alloc` records carrying an allocation identifier, so that which
allocations an operation frees can be stated explicitly.
-/

namespace core_error

/-- The `Func` enumeration of `core_error_location.h` (operation identifiers). -/
inductive Func where
  | Empty
  | vkQueueSubmit
  | vkQueueSubmit2
  | vkCmdSetEvent
  | vkCmdSetEvent2
  | vkCmdResetEvent
  | vkCmdResetEvent2
  | vkCmdPipelineBarrier
  | vkCmdPipelineBarrier2
  | vkCmdWaitEvents
  | vkCmdWaitEvents2
  | vkCmdWriteTimestamp
  | vkCmdWriteTimestamp2
  | vkCreateRenderPass
  | vkCreateRenderPass2
  | vkQueueBindSparse
  | vkSignalSemaphore
  | vkQueuePresentKHR
deriving DecidableEq, Repr

/-- The `Struct` enumeration of `core_error_location.h` (structure-type identifiers). -/
inductive Struct where
  | Empty
  | VkMemoryBarrier
  | VkMemoryBarrier2
  | VkBufferMemoryBarrier
  | VkImageMemoryBarrier
  | VkBufferMemoryBarrier2
  | VkImageMemoryBarrier2
  | VkSubmitInfo
  | VkSubmitInfo2
  | VkCommandBufferSubmitInfo
  | VkSubpassDependency
  | VkSubpassDependency2
  | VkBindSparseInfo
  | VkSemaphoreSignalInfo
  | VkSemaphoreSubmitInfo
  | VkProtectedSubmitInfo
  | VkPresentInfoKHR
deriving DecidableEq, Repr

/-- The `Field` enumeration of `core_error_location.h` (field identifiers). -/
inductive Field where
  | Empty
  | oldLayout
  | newLayout
  | image
  | buffer
  | pMemoryBarriers
  | pBufferMemoryBarriers
  | pImageMemoryBarriers
  | offset
  | size
  | subresourceRange
  | srcAccessMask
  | dstAccessMask
  | srcStageMask
  | dstStageMask
  | pNext
  | pWaitDstStageMask
  | pWaitSemaphores
  | pSignalSemaphores
  | pWaitSemaphoreInfos
  | pWaitSemaphoreValues
  | pSignalSemaphoreInfos
  | pSignalSemaphoreValues
  | stage
  | stageMask
  | value
  | pCommandBuffers
  | pSubmits
  | pCommandBufferInfos
  | semaphore
  | commandBuffer
  | dependencyFlags
  | pDependencyInfo
  | pDependencyInfos
  | srcQueueFamilyIndex
  | dstQueueFamilyIndex
  | queryPool
  | pDependencies
  | pipelineStage
deriving DecidableEq, Repr

/-- `Location::kNoIndex = vvl::kU32Max`, the sentinel for "not indexed". -/
def kNoIndex : Nat := 4294967295

/-- `core_error::Location`: operation identifier, structure tag, field,
optional array index, and a reference to the parent Location (`prev`,
absent at the root).  The C++ `const Location* prev` is modelled as an
`Option Location` holding a value copy of the parent. -/
inductive Location where
  | mk (function : Func) (structTag : Struct) (field : Field) (index : Nat)
       (prev : Option Location)
deriving Repr

/-- Projection for `Location::function`. -/
def Location.function : Location → Func
  | .mk f _ _ _ _ => f

/-- Projection for `Location::structure` (a Lean keyword, hence `structTag`). -/
def Location.structTag : Location → Struct
  | .mk _ s _ _ _ => s

/-- Projection for `Location::field`. -/
def Location.field : Location → Field
  | .mk _ _ f _ _ => f

/-- Projection for `Location::index`. -/
def Location.index : Location → Nat
  | .mk _ _ _ i _ => i

/-- Projection for `Location::prev`. -/
def Location.prev : Location → Option Location
  | .mk _ _ _ _ p => p

/-- Constructor `Location(Func func, Struct s, Field f, uint32_t i)`:
a root Location with `prev = nullptr`. -/
def Location.rootStruct (func : Func) (s : Struct) (f : Field) (i : Nat) : Location :=
  .mk func s f i none

/-- Constructor `Location(Func func, Field f, uint32_t i)`:
a root Location with `structure = Struct::Empty` and `prev = nullptr`. -/
def Location.rootFunc (func : Func) (f : Field) (i : Nat) : Location :=
  .mk func Struct.Empty f i none

/-- Constructor `Location(const Location& prev_loc, Struct s, Field f, uint32_t i)`:
copies `prev_loc.function` and points `prev` at the parent. -/
def Location.fromPrev (prev_loc : Location) (s : Struct) (f : Field) (i : Nat) : Location :=
  .mk prev_loc.function s f i (some prev_loc)

/-- `Location::dot(Struct s, Field sub_field, uint32_t sub_index)`. -/
def Location.dotStruct (loc : Location) (s : Struct) (sub_field : Field) (sub_index : Nat) :
    Location :=
  Location.fromPrev loc s sub_field sub_index

/-- `Location::dot(Field sub_field, uint32_t sub_index)`: keeps `this->structure`. -/
def Location.dot (loc : Location) (sub_field : Field) (sub_index : Nat) : Location :=
  Location.fromPrev loc loc.structTag sub_field sub_index

/-- The Location itself followed by its whole `prev` chain, innermost first. -/
def Location.ancestors : Location → List Location
  | .mk f s fl i p =>
    Location.mk f s fl i p :: (match p with
      | none => []
      | some parent => parent.ancestors)

/-- The derivation relation: `DerivedFrom root loc` holds when `loc` is obtained
from `root` by zero or more applications of either `dot` overload. -/
inductive DerivedFrom : Location → Location → Prop where
  | refl (loc : Location) : DerivedFrom loc loc
  | stepStruct {root loc : Location} (s : Struct) (f : Field) (i : Nat) :
      DerivedFrom root loc → DerivedFrom root (loc.dotStruct s f i)
  | stepField {root loc : Location} (f : Field) (i : Nat) :
      DerivedFrom root loc → DerivedFrom root (loc.dot f i)

/-- `core_error::Key`: a pattern over (operation, structure, field, recurse flag). -/
structure Key where
  function : Func
  structTag : Struct
  field : Field
  recurse_field : Bool
deriving DecidableEq, Repr

/-- Constructor `Key(Struct r, Field f, bool recurse)`: sets `function = Func::Empty`. -/
def Key.ofStruct (r : Struct) (f : Field) (recurse : Bool) : Key :=
  ⟨Func.Empty, r, f, recurse⟩

/-- Constructor `Key(Func fn, Field f, bool recurse)`: sets `structure = Struct::Empty`. -/
def Key.ofFunc (fn : Func) (f : Field) (recurse : Bool) : Key :=
  ⟨fn, Struct.Empty, f, recurse⟩

/-- A Key is constructible iff it is the result of one of the two public
constructors. -/
def Key.Constructible (k : Key) : Prop :=
  (∃ r f b, k = Key.ofStruct r f b) ∨ (∃ fn f b, k = Key.ofFunc fn f b)

/-- Whether some Location in the `prev` chain of `loc` (the chain proper, i.e.
the ancestors strictly above `loc`, or `loc` itself) has field `f`. -/
def Location.chainHasField (loc : Location) (f : Field) : Bool :=
  loc.ancestors.any (fun a => a.field = f)

/-- Modelled from the spec: `core_error::operator==(const Key&, const Location&)`
is declared in `core_error_location.h` but defined in a source file not in this
slice.  Per the spec's fuzzy-match rules, `key.function` and `key.structure`
act as wildcards when `Empty`; `key.field` wildcards when `Empty`, otherwise it
must equal the Location's own field or — only when `recurse_field` is set —
the field of some ancestor in the Location's `prev` chain. -/
def keyMatches (key : Key) (loc : Location) : Bool :=
  (key.function = Func.Empty || key.function = loc.function)
  && (key.structTag = Struct.Empty || key.structTag = loc.structTag)
  && (key.field = Field.Empty || key.field = loc.field
      || (key.recurse_field && loc.chainHasField key.field))

/-- `core_error::Entry`: a (Key, VUID string) pair. -/
structure Entry where
  k : Key
  v : String
deriving DecidableEq, Repr

/-- `core_error::FindVUID(const Location&, const Table&)`: `std::find_if` over
the entries with predicate `entry.k == loc`, returning the found entry's
string, or the static empty string when no entry matches. -/
def FindVUID (loc : Location) (table : List Entry) : String :=
  match table.find? (fun entry => keyMatches entry.k loc) with
  | some entry => entry.v
  | none => ""

/-- `std::count_if` over the table with predicate `entry.k == loc`
(the development-time consistency assertion counts matches this way). -/
def countMatches (loc : Location) (table : List Entry) : Nat :=
  table.countP (fun entry => keyMatches entry.k loc)

/-- `Location::StringFunc()` parametrized by the external name-lookup facility
`String(Func)` (declared in the header, defined in a sibling source not in
this slice). -/
def Location.StringFunc (stringOfFunc : Func → String) (loc : Location) : String :=
  stringOfFunc loc.function

/-- `Location::Fields()`: streams `AppendFields` into a fresh `stringstream`
and returns the accumulated string.  `AppendFields` (defined in a sibling
source not in this slice) is modelled as a stream transformer
`Location → String → String`. -/
def Location.Fields (appendFields : Location → String → String) (loc : Location) : String :=
  appendFields loc ""

/-- `Location::Message()`: streams `StringFunc()`, then the literal `"(): "`,
then `AppendFields` into a fresh `stringstream`. -/
def Location.Message (stringOfFunc : Func → String)
    (appendFields : Location → String → String) (loc : Location) : String :=
  appendFields loc ("" ++ stringOfFunc loc.function ++ "(): ")

/-- A stream transformer is an appender when writing to a stream that already
holds `out` appends exactly what it would write to an empty stream. -/
def IsAppender (appendFields : Location → String → String) : Prop :=
  ∀ loc out, appendFields loc out = out ++ appendFields loc ""

end core_error

namespace vk_safe

/-- An owned heap allocation: an allocation identifier (modelling the address
returned by `new`) together with the stored contents. -/
structure Alloc (α : Type) where
  id : Nat
  val : α
deriving DecidableEq, Repr

/-- The allocation identifiers held by an optional owned pointer field
(`[]` models `nullptr`). -/
def allocIds {α : Type} : Option (Alloc α) → List Nat
  | none => []
  | some a => [a.id]

/-- `SafePnextCopy`: the external chain-copy facility, which deep-copies the
`pNext` chain into a fresh owned allocation (`nullptr` stays `nullptr`).
The chain contents are modelled abstractly as a list of node payloads;
the allocation counter supplies fresh identifiers. -/
def SafePnextCopy (pNext : Option (List Nat)) (ctr : Nat) :
    Option (Alloc (List Nat)) × Nat :=
  match pNext with
  | none => (none, ctr)
  | some chain => (some ⟨ctr, chain⟩, ctr + 1)

/-- `SafePnextCopy` applied to another safe structure's owned chain
(copies the chain contents into a fresh allocation). -/
def SafePnextCopyOwned (pNext : Option (Alloc (List Nat))) (ctr : Nat) :
    Option (Alloc (List Nat)) × Nat :=
  match pNext with
  | none => (none, ctr)
  | some a => (some ⟨ctr, a.val⟩, ctr + 1)

/-- `VK_SHARING_MODE_CONCURRENT` (Vulkan enumerant value 1). -/
def VK_SHARING_MODE_CONCURRENT : Nat := 1

/-- The raw `VkSwapchainCreateInfoKHR` as handed to the layer: borrowed
array memory is modelled as a function from element index to element value
(`none` models a null pointer), and the borrowed `pNext` chain as the list
of chain-node payloads. -/
structure VkSwapchainCreateInfoKHR where
  sType : Nat
  pNext : Option (List Nat)
  flags : Nat
  surface : Nat
  minImageCount : Nat
  imageFormat : Nat
  imageColorSpace : Nat
  imageExtent : Nat × Nat
  imageArrayLayers : Nat
  imageUsage : Nat
  imageSharingMode : Nat
  queueFamilyIndexCount : Nat
  pQueueFamilyIndices : Option (Nat → Nat)
  preTransform : Nat
  compositeAlpha : Nat
  presentMode : Nat
  clipped : Nat
  oldSwapchain : Nat

/-- `safe_VkSwapchainCreateInfoKHR`: every pointer field replaced by an
independently owned allocation. -/
structure safe_VkSwapchainCreateInfoKHR where
  sType : Nat
  pNext : Option (Alloc (List Nat))
  flags : Nat
  surface : Nat
  minImageCount : Nat
  imageFormat : Nat
  imageColorSpace : Nat
  imageExtent : Nat × Nat
  imageArrayLayers : Nat
  imageUsage : Nat
  imageSharingMode : Nat
  queueFamilyIndexCount : Nat
  pQueueFamilyIndices : Option (Alloc (List Nat))
  preTransform : Nat
  compositeAlpha : Nat
  presentMode : Nat
  clipped : Nat
  oldSwapchain : Nat
deriving DecidableEq, Repr

/-- The allocations a `safe_VkSwapchainCreateInfoKHR` currently owns, in the
order the destructor releases them (`pQueueFamilyIndices`, then the `pNext`
chain). -/
def swapchainOwned (self : safe_VkSwapchainCreateInfoKHR) : List Nat :=
  allocIds self.pQueueFamilyIndices ++ allocIds self.pNext

/-- `safe_VkSwapchainCreateInfoKHR(const VkSwapchainCreateInfoKHR*)`
(vk_safe_struct_khr.cpp:38-65): fixed fields copied verbatim;
`pQueueFamilyIndices` allocated and block-copied only when
`imageSharingMode == VK_SHARING_MODE_CONCURRENT` and the source pointer is
non-null, with `queueFamilyIndexCount` set to 0 otherwise; the chain copied
via `SafePnextCopy`.  Returns the constructed value and the advanced
allocation counter. -/
def swapchainConstruct (in_struct : VkSwapchainCreateInfoKHR) (ctr : Nat) :
    safe_VkSwapchainCreateInfoKHR × Nat :=
  let (pNextCopy, ctr1) := SafePnextCopy in_struct.pNext ctr
  let (qfi, qfiCount, ctr2) :=
    match in_struct.pQueueFamilyIndices with
    | some mem =>
      if in_struct.imageSharingMode = VK_SHARING_MODE_CONCURRENT then
        (some (Alloc.mk ctr1 ((List.range in_struct.queueFamilyIndexCount).map mem)),
         in_struct.queueFamilyIndexCount, ctr1 + 1)
      else (none, 0, ctr1)
    | none => (none, 0, ctr1)
  ({ sType := in_struct.sType
     pNext := pNextCopy
     flags := in_struct.flags
     surface := in_struct.surface
     minImageCount := in_struct.minImageCount
     imageFormat := in_struct.imageFormat
     imageColorSpace := in_struct.imageColorSpace
     imageExtent := in_struct.imageExtent
     imageArrayLayers := in_struct.imageArrayLayers
     imageUsage := in_struct.imageUsage
     imageSharingMode := in_struct.imageSharingMode
     queueFamilyIndexCount := qfiCount
     pQueueFamilyIndices := qfi
     preTransform := in_struct.preTransform
     compositeAlpha := in_struct.compositeAlpha
     presentMode := in_struct.presentMode
     clipped := in_struct.clipped
     oldSwapchain := in_struct.oldSwapchain }, ctr2)

/-- `safe_VkSwapchainCreateInfoKHR(const safe_VkSwapchainCreateInfoKHR&)`
(vk_safe_struct_khr.cpp:88-114): same deep-copy logic with the source's owned
array contents (the `memcpy` reads `copy_src.queueFamilyIndexCount` elements
from the source allocation). -/
def swapchainCopyConstruct (copy_src : safe_VkSwapchainCreateInfoKHR) (ctr : Nat) :
    safe_VkSwapchainCreateInfoKHR × Nat :=
  let (pNextCopy, ctr1) := SafePnextCopyOwned copy_src.pNext ctr
  let (qfi, qfiCount, ctr2) :=
    match copy_src.pQueueFamilyIndices with
    | some a =>
      if copy_src.imageSharingMode = VK_SHARING_MODE_CONCURRENT then
        (some (Alloc.mk ctr1 (a.val.take copy_src.queueFamilyIndexCount)),
         copy_src.queueFamilyIndexCount, ctr1 + 1)
      else (none, 0, ctr1)
    | none => (none, 0, ctr1)
  ({ sType := copy_src.sType
     pNext := pNextCopy
     flags := copy_src.flags
     surface := copy_src.surface
     minImageCount := copy_src.minImageCount
     imageFormat := copy_src.imageFormat
     imageColorSpace := copy_src.imageColorSpace
     imageExtent := copy_src.imageExtent
     imageArrayLayers := copy_src.imageArrayLayers
     imageUsage := copy_src.imageUsage
     imageSharingMode := copy_src.imageSharingMode
     queueFamilyIndexCount := qfiCount
     pQueueFamilyIndices := qfi
     preTransform := copy_src.preTransform
     compositeAlpha := copy_src.compositeAlpha
     presentMode := copy_src.presentMode
     clipped := copy_src.clipped
     oldSwapchain := copy_src.oldSwapchain }, ctr2)

/-- `safe_VkSwapchainCreateInfoKHR::initialize(const VkSwapchainCreateInfoKHR*)`
(vk_safe_struct_khr.cpp:161-191): first `delete[] pQueueFamilyIndices` and
`FreePnextChain(pNext)`, then the same assignments as construction.
Returns (new state, list of freed allocation ids, counter). -/
def swapchainInitialize (self : safe_VkSwapchainCreateInfoKHR)
    (in_struct : VkSwapchainCreateInfoKHR) (ctr : Nat) :
    safe_VkSwapchainCreateInfoKHR × List Nat × Nat :=
  let freed := allocIds self.pQueueFamilyIndices ++ allocIds self.pNext
  let (pNextCopy, ctr1) := SafePnextCopy in_struct.pNext ctr
  let (qfi, qfiCount, ctr2) :=
    match in_struct.pQueueFamilyIndices with
    | some mem =>
      if in_struct.imageSharingMode = VK_SHARING_MODE_CONCURRENT then
        (some (Alloc.mk ctr1 ((List.range in_struct.queueFamilyIndexCount).map mem)),
         in_struct.queueFamilyIndexCount, ctr1 + 1)
      else (none, 0, ctr1)
    | none => (none, 0, ctr1)
  ({ sType := in_struct.sType
     pNext := pNextCopy
     flags := in_struct.flags
     surface := in_struct.surface
     minImageCount := in_struct.minImageCount
     imageFormat := in_struct.imageFormat
     imageColorSpace := in_struct.imageColorSpace
     imageExtent := in_struct.imageExtent
     imageArrayLayers := in_struct.imageArrayLayers
     imageUsage := in_struct.imageUsage
     imageSharingMode := in_struct.imageSharingMode
     queueFamilyIndexCount := qfiCount
     pQueueFamilyIndices := qfi
     preTransform := in_struct.preTransform
     compositeAlpha := in_struct.compositeAlpha
     presentMode := in_struct.presentMode
     clipped := in_struct.clipped
     oldSwapchain := in_struct.oldSwapchain }, freed, ctr2)

/-- `safe_VkSwapchainCreateInfoKHR::initialize(const safe_VkSwapchainCreateInfoKHR*)`
(vk_safe_struct_khr.cpp:193-219): overwrites every field with the copy logic of
the copy constructor; the function body contains no `delete[]` and no
`FreePnextChain`, so the freed list is empty. -/
def swapchainInitializeFromSafe (self copy_src : safe_VkSwapchainCreateInfoKHR)
    (ctr : Nat) : safe_VkSwapchainCreateInfoKHR × List Nat × Nat :=
  let (pNextCopy, ctr1) := SafePnextCopyOwned copy_src.pNext ctr
  let (qfi, qfiCount, ctr2) :=
    match copy_src.pQueueFamilyIndices with
    | some a =>
      if copy_src.imageSharingMode = VK_SHARING_MODE_CONCURRENT then
        (some (Alloc.mk ctr1 (a.val.take copy_src.queueFamilyIndexCount)),
         copy_src.queueFamilyIndexCount, ctr1 + 1)
      else (none, 0, ctr1)
    | none => (none, 0, ctr1)
  ({ sType := copy_src.sType
     pNext := pNextCopy
     flags := copy_src.flags
     surface := copy_src.surface
     minImageCount := copy_src.minImageCount
     imageFormat := copy_src.imageFormat
     imageColorSpace := copy_src.imageColorSpace
     imageExtent := copy_src.imageExtent
     imageArrayLayers := copy_src.imageArrayLayers
     imageUsage := copy_src.imageUsage
     imageSharingMode := copy_src.imageSharingMode
     queueFamilyIndexCount := qfiCount
     pQueueFamilyIndices := qfi
     preTransform := copy_src.preTransform
     compositeAlpha := copy_src.compositeAlpha
     presentMode := copy_src.presentMode
     clipped := copy_src.clipped
     oldSwapchain := copy_src.oldSwapchain }, ([] : List Nat), ctr2)

end vk_safe

namespace vk_safe

/-- The raw `VkPresentInfoKHR`: borrowed arrays as element-index functions. -/
structure VkPresentInfoKHR where
  sType : Nat
  pNext : Option (List Nat)
  waitSemaphoreCount : Nat
  pWaitSemaphores : Option (Nat → Nat)
  swapchainCount : Nat
  pSwapchains : Option (Nat → Nat)
  pImageIndices : Option (Nat → Nat)
  pResults : Option (Nat → Nat)

/-- `safe_VkPresentInfoKHR`. -/
structure safe_VkPresentInfoKHR where
  sType : Nat
  pNext : Option (Alloc (List Nat))
  waitSemaphoreCount : Nat
  pWaitSemaphores : Option (Alloc (List Nat))
  swapchainCount : Nat
  pSwapchains : Option (Alloc (List Nat))
  pImageIndices : Option (Alloc (List Nat))
  pResults : Option (Alloc (List Nat))
deriving DecidableEq, Repr

/-- `safe_VkPresentInfoKHR(const VkPresentInfoKHR*)`
(vk_safe_struct_khr.cpp:221-251): `pWaitSemaphores` and `pSwapchains` are
allocated when their count member is non-zero and the source pointer is
non-null (element-wise loop of count elements); `pImageIndices` and
`pResults` are allocated whenever the source pointer is non-null alone,
copying `swapchainCount` elements by `memcpy`. -/
def presentConstruct (in_struct : VkPresentInfoKHR) (ctr : Nat) :
    safe_VkPresentInfoKHR × Nat :=
  let (pNextCopy, ctr1) := SafePnextCopy in_struct.pNext ctr
  let (ws, ctr2) :=
    match in_struct.pWaitSemaphores with
    | some mem =>
      if in_struct.waitSemaphoreCount ≠ 0 then
        (some (Alloc.mk ctr1 ((List.range in_struct.waitSemaphoreCount).map mem)), ctr1 + 1)
      else (none, ctr1)
    | none => (none, ctr1)
  let (sc, ctr3) :=
    match in_struct.pSwapchains with
    | some mem =>
      if in_struct.swapchainCount ≠ 0 then
        (some (Alloc.mk ctr2 ((List.range in_struct.swapchainCount).map mem)), ctr2 + 1)
      else (none, ctr2)
    | none => (none, ctr2)
  let (ii, ctr4) :=
    match in_struct.pImageIndices with
    | some mem =>
      (some (Alloc.mk ctr3 ((List.range in_struct.swapchainCount).map mem)), ctr3 + 1)
    | none => (none, ctr3)
  let (rs, ctr5) :=
    match in_struct.pResults with
    | some mem =>
      (some (Alloc.mk ctr4 ((List.range in_struct.swapchainCount).map mem)), ctr4 + 1)
    | none => (none, ctr4)
  ({ sType := in_struct.sType
     pNext := pNextCopy
     waitSemaphoreCount := in_struct.waitSemaphoreCount
     pWaitSemaphores := ws
     swapchainCount := in_struct.swapchainCount
     pSwapchains := sc
     pImageIndices := ii
     pResults := rs }, ctr5)

/-- `sizeof(VkAccelerationStructureInstanceKHR*)` on the 64-bit targets this
generated code is built for. -/
def ptrSize : Nat := 8

/-- `sizeof(VkAccelerationStructureInstanceKHR)`: 48-byte transform matrix,
two 32-bit bitfield words, one 64-bit reference. -/
def instSize : Nat := 64

/-- `VK_GEOMETRY_TYPE_INSTANCES_KHR` (Vulkan enumerant value 2). -/
def VK_GEOMETRY_TYPE_INSTANCES_KHR : Nat := 2

/-- Host-mode instances conversion, array-of-pointers representation
(vk_safe_struct_khr.cpp:9862-9864): the allocation's byte length
`array_size = primitiveOffset + pp_array_size + p_array_size`. -/
def ptrCaseSize (K N : Nat) : Nat := K + N * ptrSize + N * instSize

/-- Byte offset of pointer slot `i` inside the new allocation: the slot array
`ppInstances` starts at `allocation + primitiveOffset`. -/
def ptrCaseSlotOffset (K i : Nat) : Nat := K + i * ptrSize

/-- The pointer value stored in slot `i`: `ppInstances[i] = &pInstances[i]`,
where `pInstances` starts at `allocation + primitiveOffset + pp_array_size`
(vk_safe_struct_khr.cpp:9866-9871), expressed as a byte offset into the
allocation. -/
def ptrCaseSlotTarget (K N i : Nat) : Nat := K + N * ptrSize + i * instSize

/-- The bytes of the instance-record region of the new allocation:
`pInstances[i] = *(source pointer i)` writes the 64 bytes of dereferenced
source record `i` at offset `K + N*ptrSize + i*instSize`.  `deref i j` is
byte `j` of the source's `i`-th dereferenced record; bytes outside the
record region (the first `K` bytes and the pointer slots) are not
byte-modelled (`none`). -/
def ptrCaseRecordByte (K N : Nat) (deref : Nat → Nat → Nat) (b : Nat) : Option Nat :=
  if K + N * ptrSize ≤ b ∧ b < K + N * ptrSize + N * instSize then
    some (deref ((b - (K + N * ptrSize)) / instSize) ((b - (K + N * ptrSize)) % instSize))
  else none

/-- Host-mode instances conversion, flat representation
(vk_safe_struct_khr.cpp:9876-9881): the allocation has
`array_size = primitiveOffset + primitiveCount * sizeof(instance)` bytes;
`memcpy(allocation + primitiveOffset, host + primitiveOffset, N * instSize)`
copies the source bytes at the same offsets; the first `K` bytes are left
uninitialized (`none`).  The allocation is modelled as the list of its
bytes. -/
def flatCaseAlloc (K N : Nat) (host : Nat → Nat) : List (Option Nat) :=
  (List.range K).map (fun _ => none)
    ++ (List.range (N * instSize)).map (fun i => some (host (K + i)))

/-- `ASGeomKHRExtraData` (vk_safe_struct_khr.cpp:9836-9849): the side-table
record {owned buffer, primitive offset, primitive count}; its destructor
frees the buffer. -/
structure ASGeomKHRExtraData where
  ptr : Nat
  primitiveOffset : Nat
  primitiveCount : Nat
deriving DecidableEq, Repr

/-- The host-allocation side table `as_geom_khr_host_alloc`
(vk_safe_struct_khr.cpp:9851), keyed by the owning safe-structure instance's
identity (the C++ `this` pointer, modelled as a `Nat`). -/
abbrev HostAllocTable := List (Nat × ASGeomKHRExtraData)

/-- `vl_concurrent_unordered_map::find`: the value stored under key `k`,
if any. -/
def tableFind : HostAllocTable → Nat → Option ASGeomKHRExtraData
  | [], _ => none
  | hd :: tl, k => if hd.1 = k then some hd.2 else tableFind tl k

/-- `vl_concurrent_unordered_map::pop`: returns the entry for `k` (if any)
and the table with that entry removed. -/
def tablePop (t : HostAllocTable) (k : Nat) :
    Option ASGeomKHRExtraData × HostAllocTable :=
  (tableFind t k, t.filter (fun e => e.1 ≠ k))

/-- Modelled from the spec: `vl_concurrent_unordered_map::insert`
(`custom_containers.h`, not in this slice) adds an entry when the key is
absent and leaves the map unchanged when the key is already present
(`std::unordered_map::emplace` semantics). -/
def tableInsert (t : HostAllocTable) (k : Nat) (v : ASGeomKHRExtraData) :
    HostAllocTable :=
  match tableFind t k with
  | some _ => t
  | none => (k, v) :: t

/-- The instances view of the `VkAccelerationStructureGeometryDataKHR` union:
the only members the generated code reads or rewrites
(`geometry.instances.arrayOfPointers`, `geometry.instances.data.hostAddress`). -/
structure InstancesData where
  arrayOfPointers : Bool
  dataHostAddress : Nat
deriving DecidableEq, Repr

/-- The raw `VkAccelerationStructureGeometryKHR`. -/
structure VkAccelerationStructureGeometryKHR where
  sType : Nat
  pNext : Option (List Nat)
  geometryType : Nat
  geometry : InstancesData
  flags : Nat

/-- `VkAccelerationStructureBuildRangeInfoKHR`. -/
structure VkAccelerationStructureBuildRangeInfoKHR where
  primitiveCount : Nat
  primitiveOffset : Nat
  firstVertex : Nat
  transformOffset : Nat

/-- `safe_VkAccelerationStructureGeometryKHR`. -/
structure safe_VkAccelerationStructureGeometryKHR where
  sType : Nat
  pNext : Option (Alloc (List Nat))
  geometryType : Nat
  geometry : InstancesData
  flags : Nat
deriving DecidableEq, Repr

/-- `safe_VkAccelerationStructureGeometryKHR(const VkAccelerationStructureGeometryKHR*,
bool is_host, const VkAccelerationStructureBuildRangeInfoKHR*)`
(vk_safe_struct_khr.cpp:9853-9886): fields copied, chain deep-copied; in host
mode with instances geometry, one buffer is allocated (array-of-pointers or
flat layout per `arrayOfPointers`), `data.hostAddress` is repointed at it,
and `{buffer, primitiveOffset, primitiveCount}` is registered in the side
table under this instance's identity `selfId`. -/
def geomConstruct (selfId : Nat) (in_struct : VkAccelerationStructureGeometryKHR)
    (is_host : Bool) (build_range_info : VkAccelerationStructureBuildRangeInfoKHR)
    (table : HostAllocTable) (ctr : Nat) :
    safe_VkAccelerationStructureGeometryKHR × HostAllocTable × Nat :=
  let (pNextCopy, ctr1) := SafePnextCopy in_struct.pNext ctr
  let base : safe_VkAccelerationStructureGeometryKHR :=
    { sType := in_struct.sType
      pNext := pNextCopy
      geometryType := in_struct.geometryType
      geometry := in_struct.geometry
      flags := in_struct.flags }
  if is_host ∧ in_struct.geometryType = VK_GEOMETRY_TYPE_INSTANCES_KHR then
    if base.geometry.arrayOfPointers then
      let allocation := ctr1
      ({ base with geometry := { base.geometry with dataHostAddress := allocation } },
       tableInsert table selfId
         ⟨allocation, build_range_info.primitiveOffset, build_range_info.primitiveCount⟩,
       ctr1 + 1)
    else
      let allocation := ctr1
      ({ base with geometry := { base.geometry with dataHostAddress := allocation } },
       tableInsert table selfId
         ⟨allocation, build_range_info.primitiveOffset, build_range_info.primitiveCount⟩,
       ctr1 + 1)
  else (base, table, ctr1)

/-- `~safe_VkAccelerationStructureGeometryKHR()`
(vk_safe_struct_khr.cpp:9973-9981): pops this instance's side-table entry and
deletes it (freeing its buffer), then frees the `pNext` chain.  Returns the
new table and the freed allocation ids. -/
def geomDestroy (selfId : Nat) (self : safe_VkAccelerationStructureGeometryKHR)
    (table : HostAllocTable) : HostAllocTable × List Nat :=
  let (popped, t1) := tablePop table selfId
  let freedExtra := match popped with
    | some e => [e.ptr]
    | none => []
  (t1, freedExtra ++ allocIds self.pNext)

/-- `safe_VkAccelerationStructureGeometryKHR::initialize(const
VkAccelerationStructureGeometryKHR*, bool, const
VkAccelerationStructureBuildRangeInfoKHR*)`
(vk_safe_struct_khr.cpp:9983-10022): pops and deletes this instance's
side-table entry, frees the chain, then repeats the construction logic. -/
def geomInitialize (selfId : Nat) (self : safe_VkAccelerationStructureGeometryKHR)
    (in_struct : VkAccelerationStructureGeometryKHR) (is_host : Bool)
    (build_range_info : VkAccelerationStructureBuildRangeInfoKHR)
    (table : HostAllocTable) (ctr : Nat) :
    safe_VkAccelerationStructureGeometryKHR × HostAllocTable × List Nat × Nat :=
  let (popped, t1) := tablePop table selfId
  let freedExtra := match popped with
    | some e => [e.ptr]
    | none => []
  let freed := freedExtra ++ allocIds self.pNext
  let (pNextCopy, ctr1) := SafePnextCopy in_struct.pNext ctr
  let base : safe_VkAccelerationStructureGeometryKHR :=
    { sType := in_struct.sType
      pNext := pNextCopy
      geometryType := in_struct.geometryType
      geometry := in_struct.geometry
      flags := in_struct.flags }
  if is_host ∧ in_struct.geometryType = VK_GEOMETRY_TYPE_INSTANCES_KHR then
    if base.geometry.arrayOfPointers then
      let allocation := ctr1
      ({ base with geometry := { base.geometry with dataHostAddress := allocation } },
       tableInsert t1 selfId
         ⟨allocation, build_range_info.primitiveOffset, build_range_info.primitiveCount⟩,
       freed, ctr1 + 1)
    else
      let allocation := ctr1
      ({ base with geometry := { base.geometry with dataHostAddress := allocation } },
       tableInsert t1 selfId
         ⟨allocation, build_range_info.primitiveOffset, build_range_info.primitiveCount⟩,
       freed, ctr1 + 1)
  else (base, t1, freed, ctr1)

/-- `safe_VkAccelerationStructureGeometryKHR::initialize(const
safe_VkAccelerationStructureGeometryKHR*)` (vk_safe_struct_khr.cpp:10024-10055):
overwrites the fields from the source and, when the source has a side-table
entry, rebuilds the buffer from it and inserts a new entry for this instance.
The function body contains no `pop`, no `delete`, and no `FreePnextChain`:
nothing previously owned is removed or freed, so the freed list is empty. -/
def geomInitializeFromSafe (selfId : Nat)
    (self : safe_VkAccelerationStructureGeometryKHR) (copySrcId : Nat)
    (copy_src : safe_VkAccelerationStructureGeometryKHR)
    (table : HostAllocTable) (ctr : Nat) :
    safe_VkAccelerationStructureGeometryKHR × HostAllocTable × List Nat × Nat :=
  let (pNextCopy, ctr1) := SafePnextCopyOwned copy_src.pNext ctr
  let base : safe_VkAccelerationStructureGeometryKHR :=
    { sType := copy_src.sType
      pNext := pNextCopy
      geometryType := copy_src.geometryType
      geometry := copy_src.geometry
      flags := copy_src.flags }
  match tableFind table copySrcId with
  | some src_alloc =>
    if base.geometry.arrayOfPointers then
      let allocation := ctr1
      ({ base with geometry := { base.geometry with dataHostAddress := allocation } },
       tableInsert table selfId
         ⟨allocation, src_alloc.primitiveOffset, src_alloc.primitiveCount⟩,
       ([] : List Nat), ctr1 + 1)
    else
      let allocation := ctr1
      ({ base with geometry := { base.geometry with dataHostAddress := allocation } },
       tableInsert table selfId
         ⟨allocation, src_alloc.primitiveOffset, src_alloc.primitiveCount⟩,
       ([] : List Nat), ctr1 + 1)
  | none => (base, table, ([] : List Nat), ctr1)

/-- `safe_VkAccelerationStructureGeometryKHR::operator=(const
safe_VkAccelerationStructureGeometryKHR&)` (vk_safe_struct_khr.cpp:9929-9971):
self-assignment is a guarded no-op; otherwise pops and deletes this
instance's side-table entry (freeing its buffer), frees the chain, then
copies the source as the copy constructor does, inserting a new side-table
entry when the source has one. -/
def geomAssign (selfId : Nat) (self : safe_VkAccelerationStructureGeometryKHR)
    (copySrcId : Nat) (copy_src : safe_VkAccelerationStructureGeometryKHR)
    (table : HostAllocTable) (ctr : Nat) :
    safe_VkAccelerationStructureGeometryKHR × HostAllocTable × List Nat × Nat :=
  if selfId = copySrcId then (self, table, [], ctr)
  else
    let (popped, t1) := tablePop table selfId
    let freedExtra := match popped with
      | some e => [e.ptr]
      | none => []
    let freed := freedExtra ++ allocIds self.pNext
    let (pNextCopy, ctr1) := SafePnextCopyOwned copy_src.pNext ctr
    let base : safe_VkAccelerationStructureGeometryKHR :=
      { sType := copy_src.sType
        pNext := pNextCopy
        geometryType := copy_src.geometryType
        geometry := copy_src.geometry
        flags := copy_src.flags }
    match tableFind t1 copySrcId with
    | some src_alloc =>
      if base.geometry.arrayOfPointers then
        let allocation := ctr1
        ({ base with geometry := { base.geometry with dataHostAddress := allocation } },
         tableInsert t1 selfId
           ⟨allocation, src_alloc.primitiveOffset, src_alloc.primitiveCount⟩,
         freed, ctr1 + 1)
      else
        let allocation := ctr1
        ({ base with geometry := { base.geometry with dataHostAddress := allocation } },
         tableInsert t1 selfId
           ⟨allocation, src_alloc.primitiveOffset, src_alloc.primitiveCount⟩,
         freed, ctr1 + 1)
    | none => (base, t1, freed, ctr1)

end vk_safe

namespace shader_validation

/-- Modelled from the spec: the compute shared-memory validation rule (the
validator itself is not in this slice).  Shared memory is "subject to a
hardware-reported size limit that validation logic must enforce": a shader
whose total shared-memory size exceeds `maxComputeSharedMemorySize` produces
one validation error, and none otherwise. -/
def computeSharedMemoryErrorCount (totalSharedSize maxComputeSharedMemorySize : Nat) : Nat :=
  if maxComputeSharedMemorySize < totalSharedSize then 1 else 0

/-- The shader of `VkPositiveLayerTest.ComputeSharedMemoryAtLimit`
(shaderval.cpp:317-339): `shared int a[max_shared_ints]` with
`max_shared_ints = maxComputeSharedMemorySize / 4`; each `int` occupies
4 bytes. -/
def atLimitShaderSharedSize (maxComputeSharedMemorySize : Nat) : Nat :=
  4 * (maxComputeSharedMemorySize / 4)

end shader_validation

namespace core_error

/-- Every Location is the head of its own ancestor chain. -/
theorem Location.self_mem_ancestors (loc : Location) : loc ∈ loc.ancestors := by
  cases loc
  rw [Location.ancestors.eq_def]
  exact List.mem_cons_self _ _

/-- Along any derivation by `dot` operations from a root (a Location with no
parent), every Location in the ancestor chain of the derived Location carries
the root's operation identifier. -/
theorem derivedFrom_ancestors_function {root loc : Location}
    (hroot : root.prev = none) (hder : DerivedFrom root loc) :
    ∀ a ∈ loc.ancestors, a.function = root.function := by
  induction hder with
  | refl =>
    intro a ha
    cases root with
    | mk f s fl i p =>
      simp only [Location.prev] at hroot
      subst hroot
      simp only [Location.ancestors, List.mem_singleton] at ha
      subst ha
      rfl
  | stepStruct s f i h ih =>
    intro a ha
    rename_i l
    simp only [Location.dotStruct, Location.fromPrev, Location.ancestors] at ha
    rcases List.mem_cons.mp ha with h1 | h2
    · subst h1
      exact ih l (Location.self_mem_ancestors l)
    · exact ih a h2
  | stepField f i h ih =>
    intro a ha
    rename_i l
    simp only [Location.dot, Location.fromPrev, Location.ancestors] at ha
    rcases List.mem_cons.mp ha with h1 | h2
    · subst h1
      exact ih l (Location.self_mem_ancestors l)
    · exact ih a h2

end core_error

open core_error in
/-- C10: each `dot` overload produces a child whose operation identifier
equals the parent's; `dot(field, index)` additionally keeps the parent's
structure tag; and along any chain of `dot` derivations from a root, every
Location in the ancestor chain carries the root's operation identifier. -/
theorem claim_C10_dot_preserves_function (root loc a : Location)
    (s : Struct) (f : Field) (i : Nat)
    (hroot : root.prev = none) (hder : DerivedFrom root loc)
    (ha : a ∈ loc.ancestors) :
    (loc.dotStruct s f i).function = loc.function
    ∧ (loc.dot f i).function = loc.function
    ∧ (loc.dot f i).structTag = loc.structTag
    ∧ a.function = root.function := by
  refine ⟨rfl, rfl, rfl, ?_⟩
  exact derivedFrom_ancestors_function hroot hder a ha

open core_error in
/-- Witness for C10 at a concrete derivation:
`Location(vkCmdPipelineBarrier, VkImageMemoryBarrier)
   .dot(VkImageMemoryBarrier, pImageMemoryBarriers, 42).dot(srcAccessMask)`. -/
theorem claim_C10_witness :
    (((Location.rootStruct Func.vkCmdPipelineBarrier Struct.VkImageMemoryBarrier
        Field.Empty kNoIndex).dotStruct Struct.VkImageMemoryBarrier
        Field.pImageMemoryBarriers 42).dot Field.srcAccessMask kNoIndex).function
      = Func.vkCmdPipelineBarrier := by
  have base := claim_C10_dot_preserves_function
    (Location.rootStruct Func.vkCmdPipelineBarrier Struct.VkImageMemoryBarrier
      Field.Empty kNoIndex)
    (((Location.rootStruct Func.vkCmdPipelineBarrier Struct.VkImageMemoryBarrier
        Field.Empty kNoIndex).dotStruct Struct.VkImageMemoryBarrier
        Field.pImageMemoryBarriers 42).dot Field.srcAccessMask kNoIndex)
    (((Location.rootStruct Func.vkCmdPipelineBarrier Struct.VkImageMemoryBarrier
        Field.Empty kNoIndex).dotStruct Struct.VkImageMemoryBarrier
        Field.pImageMemoryBarriers 42).dot Field.srcAccessMask kNoIndex)
    Struct.VkImageMemoryBarrier Field.srcAccessMask 7
    rfl
    (DerivedFrom.stepField _ _ (DerivedFrom.stepStruct _ _ _ (DerivedFrom.refl _)))
    (Location.self_mem_ancestors _)
  exact base.2.2.2

open core_error in
/-- C9: every Key built through one of the two public constructors has a
wildcard (`Empty`) operation or a wildcard structure: no Key constrains both. -/
theorem claim_C9_key_wildcard (k : Key) (h : Key.Constructible k) :
    k.function = Func.Empty ∨ k.structTag = Struct.Empty := by
  rcases h with ⟨r, f, b, rfl⟩ | ⟨fn, f, b, rfl⟩
  · exact Or.inl rfl
  · exact Or.inr rfl

open core_error in
/-- Witness for C9 at the concrete Key `Key(vkQueueSubmit, image)`. -/
theorem claim_C9_witness :
    (Key.ofFunc Func.vkQueueSubmit Field.image false).function = Func.Empty
    ∨ (Key.ofFunc Func.vkQueueSubmit Field.image false).structTag = Struct.Empty :=
  claim_C9_key_wildcard _ (Or.inr ⟨Func.vkQueueSubmit, Field.image, false, rfl⟩)

open core_error in
/-- C7: for every Location and every (stream-appending) rendering of the
field path, `Message()` is exactly `StringFunc()` followed by the literal
`"(): "` followed by `Fields()`. -/
theorem claim_C7_message_structure (stringOfFunc : Func → String)
    (appendFields : Location → String → String) (loc : Location)
    (h : IsAppender appendFields) :
    Location.Message stringOfFunc appendFields loc
      = Location.StringFunc stringOfFunc loc ++ "(): "
        ++ Location.Fields appendFields loc := by
  rw [Location.Message, Location.StringFunc, Location.Fields, h loc]
  simp [String.append_assoc]

/-- A concrete stream appender used to instantiate C7: always writes the
fixed text "path" to the stream. -/
def constPathAppender : core_error.Location → String → String :=
  fun _ out => out ++ "path"

/-- `constPathAppender` appends to the stream it is given. -/
theorem constPathAppender_isAppender : core_error.IsAppender constPathAppender := by
  intro loc out
  rw [constPathAppender, constPathAppender]
  rfl

open core_error in
/-- Witness for C7 at a concrete Location, name lookup, and appender. -/
theorem claim_C7_witness :
    Location.Message (fun _ => "vkQueueSubmit") constPathAppender
        (Location.rootFunc Func.vkQueueSubmit Field.Empty kNoIndex)
      = Location.StringFunc (fun _ => "vkQueueSubmit")
          (Location.rootFunc Func.vkQueueSubmit Field.Empty kNoIndex) ++ "(): "
        ++ Location.Fields constPathAppender
          (Location.rootFunc Func.vkQueueSubmit Field.Empty kNoIndex) :=
  claim_C7_message_structure (fun _ => "vkQueueSubmit") constPathAppender
    (Location.rootFunc Func.vkQueueSubmit Field.Empty kNoIndex)
    constPathAppender_isAppender

open shader_validation in
/-- C8: the at-limit compute shared-memory shader — an `int` array of
`maxComputeSharedMemorySize / 4` elements — has total size exactly the
device limit (whenever the limit is a multiple of the 4-byte int size, as
the claim's "exactly equals" presupposes) and is accepted with zero
validation errors. -/
theorem claim_C8_shared_memory_at_limit (limit : Nat) (h : limit % 4 = 0) :
    atLimitShaderSharedSize limit = limit
    ∧ computeSharedMemoryErrorCount (atLimitShaderSharedSize limit) limit = 0 := by
  have hs : atLimitShaderSharedSize limit = limit := by
    rw [atLimitShaderSharedSize]
    omega
  refine ⟨hs, ?_⟩
  rw [hs, computeSharedMemoryErrorCount]
  simp

open shader_validation in
/-- Witness for C8 at the common limit value 49152 bytes. -/
theorem claim_C8_witness :
    49152 % 4 = 0
    ∧ (atLimitShaderSharedSize 49152 = 49152
       ∧ computeSharedMemoryErrorCount (atLimitShaderSharedSize 49152) 49152 = 0) :=
  ⟨by decide, claim_C8_shared_memory_at_limit 49152 (by decide)⟩

namespace core_error

/-- Unfolding of `FindVUID` on a non-empty table: the head entry's string if
the head matches, else the lookup over the tail (the `std::find_if` order). -/
theorem FindVUID_cons (loc : Location) (hd : Entry) (tl : List Entry) :
    FindVUID loc (hd :: tl)
      = if keyMatches hd.k loc then hd.v else FindVUID loc tl := by
  rw [FindVUID, FindVUID]
  cases hp : keyMatches hd.k loc
  · rw [List.find?_cons_of_neg]
    · simp
    · simp [hp]
  · rw [List.find?_cons_of_pos]
    · simp
    · exact hp

/-- When an entry of the table matches the Location and the table has at most
one match, `FindVUID` returns that entry's string. -/
theorem findVUID_unique_match (loc : Location) :
    ∀ (table : List Entry) (e : Entry), countMatches loc table ≤ 1 →
      e ∈ table → keyMatches e.k loc = true → FindVUID loc table = e.v := by
  intro table
  induction table with
  | nil =>
    intro e _ he _
    cases he
  | cons hd tl ih =>
    intro e huniq he hm
    rw [FindVUID_cons]
    rw [countMatches, List.countP_cons] at huniq
    by_cases hp : keyMatches hd.k loc = true
    · rw [if_pos hp]
      rcases List.mem_cons.mp he with rfl | hetl
      · rfl
      · exfalso
        have hpos : 0 < tl.countP (fun entry => keyMatches entry.k loc) :=
          List.countP_pos_iff.mpr ⟨e, hetl, hm⟩
        simp only [hp, if_true] at huniq
        omega
    · rw [if_neg hp]
      rcases List.mem_cons.mp he with rfl | hetl
      · exact absurd hm hp
      · refine ih e ?_ hetl hm
        rw [countMatches]
        simp only [hp, if_false] at huniq
        omega

/-- When no entry of the table matches the Location, `FindVUID` returns the
empty string. -/
theorem findVUID_no_match (loc : Location) :
    ∀ table : List Entry, countMatches loc table = 0 → FindVUID loc table = "" := by
  intro table
  induction table with
  | nil =>
    intro _
    rfl
  | cons hd tl ih =>
    intro hnone
    rw [countMatches] at hnone
    have hall := List.countP_eq_zero.mp hnone
    have hp : ¬ keyMatches hd.k loc = true := by
      have := hall hd (List.mem_cons_self _ _)
      simpa using this
    rw [FindVUID_cons, if_neg hp]
    refine ih ?_
    rw [countMatches]
    refine List.countP_eq_zero.mpr ?_
    intro a ha
    exact hall a (List.mem_cons_of_mem _ ha)

end core_error

open core_error in
/-- C6: in any table with at most one entry matching the given Location,
`FindVUID` returns the unique matching entry's string when one exists, and
the empty string on a table with no matching entry — absence of a match is
an ordinary (empty-string) result. -/
theorem claim_C6_findvuid (loc : Location) (table noMatchTable : List Entry)
    (e : Entry) (huniq : countMatches loc table ≤ 1)
    (he : e ∈ table) (hm : keyMatches e.k loc = true)
    (hnone : countMatches loc noMatchTable = 0) :
    FindVUID loc table = e.v ∧ FindVUID loc noMatchTable = "" :=
  ⟨findVUID_unique_match loc table e huniq he hm,
   findVUID_no_match loc noMatchTable hnone⟩

/-- A concrete Location for instantiating C6: `vkQueueSubmit` at the root. -/
def exC6Loc : core_error.Location :=
  core_error.Location.rootFunc core_error.Func.vkQueueSubmit
    core_error.Field.Empty core_error.kNoIndex

/-- A concrete matching entry for C6. -/
def exC6Entry : core_error.Entry :=
  ⟨core_error.Key.ofFunc core_error.Func.vkQueueSubmit core_error.Field.Empty false,
   "VUID-vkQueueSubmit-fence-00063"⟩

/-- A concrete non-matching entry for C6 (different operation). -/
def exC6Other : core_error.Entry :=
  ⟨core_error.Key.ofFunc core_error.Func.vkCmdSetEvent core_error.Field.Empty false,
   "VUID-vkCmdSetEvent-event-03834"⟩

open core_error in
/-- Witness for C6 on a concrete two-entry table and a concrete
no-match table. -/
theorem claim_C6_witness :
    (countMatches exC6Loc [exC6Entry, exC6Other] ≤ 1
     ∧ exC6Entry ∈ [exC6Entry, exC6Other]
     ∧ keyMatches exC6Entry.k exC6Loc = true
     ∧ countMatches exC6Loc [exC6Other] = 0)
    ∧ (FindVUID exC6Loc [exC6Entry, exC6Other] = exC6Entry.v
       ∧ FindVUID exC6Loc [exC6Other] = "") :=
  ⟨by decide,
   claim_C6_findvuid exC6Loc [exC6Entry, exC6Other] [exC6Other] exC6Entry
     (by decide) (by decide) (by decide) (by decide)⟩

open vk_safe in
/-- C3: the array-of-pointers host-mode conversion allocates
`K + N*ptrSize + N*instSize` bytes; pointer slot `i` lives in the slot region
beginning at offset `K` and stores a pointer into the record region
immediately following the slot region; slots of distinct indices point to
distinct records; and the record pointed to by slot `i` is byte-for-byte
the source's `i`-th dereferenced instance record. -/
theorem claim_C3_ptr_case_layout (K N i i2 j : Nat) (deref : Nat → Nat → Nat)
    (hi : i < N) (hi2 : i2 < N) (hne : i2 ≠ i) (hj : j < instSize) :
    ptrCaseSize K N = K + N * ptrSize + N * instSize
    ∧ K ≤ ptrCaseSlotOffset K i
    ∧ ptrCaseSlotOffset K i + ptrSize ≤ K + N * ptrSize
    ∧ K + N * ptrSize ≤ ptrCaseSlotTarget K N i
    ∧ ptrCaseSlotTarget K N i + instSize ≤ ptrCaseSize K N
    ∧ ptrCaseSlotTarget K N i2 ≠ ptrCaseSlotTarget K N i
    ∧ ptrCaseRecordByte K N deref (ptrCaseSlotTarget K N i + j) = some (deref i j) := by
  rw [ptrCaseSize, ptrCaseSlotOffset, ptrCaseSlotTarget, ptrCaseSlotTarget,
    ptrCaseRecordByte]
  rw [instSize] at hj ⊢
  rw [ptrSize]
  refine ⟨rfl, by omega, by omega, by omega, by omega, by omega, ?_⟩
  rw [if_pos (by omega)]
  have harith : K + N * 8 + i * 64 + j - (K + N * 8) = i * 64 + j := by omega
  rw [harith]
  have hdiv : (i * 64 + j) / 64 = i := by omega
  have hmod : (i * 64 + j) % 64 = j := by omega
  rw [hdiv, hmod]

open vk_safe in
/-- Witness for C3 at `K = 2`, `N = 2`, slots 1 and 0, record byte 5. -/
theorem claim_C3_witness :
    (1 < 2 ∧ 0 < 2 ∧ (0 : Nat) ≠ 1 ∧ 5 < instSize)
    ∧ (ptrCaseSize 2 2 = 2 + 2 * ptrSize + 2 * instSize
       ∧ 2 ≤ ptrCaseSlotOffset 2 1
       ∧ ptrCaseSlotOffset 2 1 + ptrSize ≤ 2 + 2 * ptrSize
       ∧ 2 + 2 * ptrSize ≤ ptrCaseSlotTarget 2 2 1
       ∧ ptrCaseSlotTarget 2 2 1 + instSize ≤ ptrCaseSize 2 2
       ∧ ptrCaseSlotTarget 2 2 0 ≠ ptrCaseSlotTarget 2 2 1
       ∧ ptrCaseRecordByte 2 2 (fun a b => a * 1000 + b)
           (ptrCaseSlotTarget 2 2 1 + 5) = some ((fun a b => a * 1000 + b) 1 5)) :=
  ⟨by decide,
   claim_C3_ptr_case_layout 2 2 1 0 5 (fun a b => a * 1000 + b)
     (by decide) (by decide) (by decide) (by decide)⟩

open vk_safe in
/-- C4: the flat host-mode conversion allocates `K + N*instSize` bytes, and
every byte of the trailing `N`-record span, beginning at offset `K`, equals
the source host buffer's byte at the same offset. -/
theorem claim_C4_flat_case_layout (K N b : Nat) (host : Nat → Nat)
    (hb1 : K ≤ b) (hb2 : b < K + N * instSize) :
    (flatCaseAlloc K N host).length = K + N * instSize
    ∧ (flatCaseAlloc K N host).get? b = some (some (host b)) := by
  constructor
  · rw [flatCaseAlloc]
    simp
  · rw [flatCaseAlloc]
    rw [List.get?_eq_getElem?]
    rw [List.getElem?_append_right (by simpa using hb1)]
    simp only [List.length_map, List.length_range]
    rw [List.getElem?_map]
    rw [List.getElem?_range (by omega)]
    have : K + (b - K) = b := by omega
    simp [this]

open vk_safe in
/-- Witness for C4 at `K = 4`, `N = 1`, byte 40. -/
theorem claim_C4_witness :
    (4 ≤ 40 ∧ 40 < 4 + 1 * instSize)
    ∧ ((flatCaseAlloc 4 1 (fun b => b + 7)).length = 4 + 1 * instSize
       ∧ (flatCaseAlloc 4 1 (fun b => b + 7)).get? 40
           = some (some ((fun b => b + 7) 40))) :=
  ⟨by decide,
   claim_C4_flat_case_layout 4 1 40 (fun b => b + 7) (by decide) (by decide)⟩

/-- A concrete safe swapchain-create-info instance owning two allocations:
its queue-family-index array (allocation 0) and its `pNext` chain
(allocation 1). -/
def exC1Self : vk_safe.safe_VkSwapchainCreateInfoKHR :=
  { sType := 1000001000, pNext := some ⟨1, [5]⟩, flags := 0, surface := 3
    minImageCount := 2, imageFormat := 37, imageColorSpace := 0
    imageExtent := (640, 480), imageArrayLayers := 1, imageUsage := 16
    imageSharingMode := vk_safe.VK_SHARING_MODE_CONCURRENT
    queueFamilyIndexCount := 2, pQueueFamilyIndices := some ⟨0, [1, 2]⟩
    preTransform := 1, compositeAlpha := 1, presentMode := 2, clipped := 1
    oldSwapchain := 0 }

/-- A concrete safe swapchain-create-info source (owning nothing) to
reinitialize from. -/
def exC1Src : vk_safe.safe_VkSwapchainCreateInfoKHR :=
  { sType := 1000001000, pNext := none, flags := 0, surface := 9
    minImageCount := 3, imageFormat := 44, imageColorSpace := 0
    imageExtent := (800, 600), imageArrayLayers := 1, imageUsage := 16
    imageSharingMode := 0, queueFamilyIndexCount := 0
    pQueueFamilyIndices := none, preTransform := 1, compositeAlpha := 1
    presentMode := 2, clipped := 1, oldSwapchain := 0 }

open vk_safe in
/-- Counterexample to C1: an instance that owns allocations 0 and 1, yet
`initialize(const safe_VkSwapchainCreateInfoKHR*)` releases nothing — the
claim that reinitializing from a safe-copy source first releases the prior
allocations is false. -/
theorem claim_C1_counterexample :
    swapchainOwned exC1Self = [0, 1]
    ∧ (swapchainInitializeFromSafe exC1Self exC1Src 7).2.1 = [] := by
  constructor <;> rfl

open vk_safe in
/-- C1 (amended): `initialize` from a live raw structure first releases
exactly the allocations the instance owns (owned array, then owned chain)
and leaves the instance in the state fresh construction from the same
source would produce; `initialize` from a safe-copy source releases
nothing at all — it only overwrites the fields with the same deep copy a
fresh copy-construction would produce, leaking the prior allocations. -/
theorem claim_C1_amended (self : safe_VkSwapchainCreateInfoKHR)
    (in_struct : VkSwapchainCreateInfoKHR)
    (copy_src : safe_VkSwapchainCreateInfoKHR) (ctr : Nat) :
    (swapchainInitialize self in_struct ctr).1 = (swapchainConstruct in_struct ctr).1
    ∧ (swapchainInitialize self in_struct ctr).2.1 = swapchainOwned self
    ∧ (swapchainInitialize self in_struct ctr).2.2 = (swapchainConstruct in_struct ctr).2
    ∧ (swapchainInitializeFromSafe self copy_src ctr).1
        = (swapchainCopyConstruct copy_src ctr).1
    ∧ (swapchainInitializeFromSafe self copy_src ctr).2.1 = [] := by
  obtain ⟨st, pn, fl, su, mi, imf, ics, ie, ial, iu, ism, qc, qp, pt, ca, pm, cl, os⟩ :=
    in_struct
  obtain ⟨cst, cpn, cfl, csu, cmi, cimf, cics, cie, cial, ciu, cism, cqc, cqp, cpt,
    cca, cpm, ccl, cos⟩ := copy_src
  refine ⟨?_, rfl, ?_, ?_, ?_⟩ <;>
    cases pn <;> cases qp <;> cases cpn <;> cases cqp <;>
    simp [swapchainInitialize, swapchainConstruct, swapchainInitializeFromSafe,
      swapchainCopyConstruct, SafePnextCopy, SafePnextCopyOwned, swapchainOwned]

/-- A concrete raw present-info with `swapchainCount = 0` but a non-null
`pImageIndices` pointer. -/
def exC5Present : vk_safe.VkPresentInfoKHR :=
  { sType := 1000001001, pNext := none, waitSemaphoreCount := 0
    pWaitSemaphores := none, swapchainCount := 0, pSwapchains := none
    pImageIndices := some (fun _ => 3), pResults := none }

/-- A concrete raw swapchain-create-info with exclusive sharing mode,
a non-zero queue-family-index count, and a non-null index pointer. -/
def exC5Swap : vk_safe.VkSwapchainCreateInfoKHR :=
  { sType := 1000001000, pNext := none, flags := 0, surface := 3
    minImageCount := 2, imageFormat := 37, imageColorSpace := 0
    imageExtent := (640, 480), imageArrayLayers := 1, imageUsage := 16
    imageSharingMode := 0, queueFamilyIndexCount := 3
    pQueueFamilyIndices := some (fun _ => 9), preTransform := 1
    compositeAlpha := 1, presentMode := 2, clipped := 1, oldSwapchain := 0 }

open vk_safe in
/-- Counterexample to C5: `safe_VkPresentInfoKHR`'s constructor allocates
`pImageIndices` although the source count is zero (so "pointer null
otherwise" fails), and `safe_VkSwapchainCreateInfoKHR`'s constructor leaves
`pQueueFamilyIndices` null although the source count is non-zero and the
pointer non-null (sharing mode not concurrent) — both directions of the
claimed "if and only if count non-zero and pointer non-null" are false. -/
theorem claim_C5_counterexample :
    exC5Present.swapchainCount = 0
    ∧ (presentConstruct exC5Present 0).1.pImageIndices.isSome = true
    ∧ exC5Swap.queueFamilyIndexCount = 3
    ∧ exC5Swap.pQueueFamilyIndices.isSome = true
    ∧ (swapchainConstruct exC5Swap 0).1.pQueueFamilyIndices = none := by
  refine ⟨rfl, rfl, rfl, rfl, rfl⟩

open vk_safe in
/-- C5 (amended): the guard varies by field.  `pWaitSemaphores` and
`pSwapchains` are freshly allocated (count elements copied from the source)
iff their count is non-zero and the source pointer non-null;
`pImageIndices` and `pResults` are allocated iff the source pointer is
non-null alone, copying `swapchainCount` elements; and
`pQueueFamilyIndices` is allocated iff the sharing mode is concurrent and
the source pointer non-null, copying `queueFamilyIndexCount` elements. -/
theorem claim_C5_amended (src : VkPresentInfoKHR)
    (scSrc : VkSwapchainCreateInfoKHR) (ctr ctr2 : Nat) :
    ((presentConstruct src ctr).1.pWaitSemaphores).map Alloc.val
      = (if src.waitSemaphoreCount ≠ 0 then src.pWaitSemaphores else none).map
          (fun mem => (List.range src.waitSemaphoreCount).map mem)
    ∧ ((presentConstruct src ctr).1.pSwapchains).map Alloc.val
        = (if src.swapchainCount ≠ 0 then src.pSwapchains else none).map
            (fun mem => (List.range src.swapchainCount).map mem)
    ∧ ((presentConstruct src ctr).1.pImageIndices).map Alloc.val
        = src.pImageIndices.map (fun mem => (List.range src.swapchainCount).map mem)
    ∧ ((presentConstruct src ctr).1.pResults).map Alloc.val
        = src.pResults.map (fun mem => (List.range src.swapchainCount).map mem)
    ∧ ((swapchainConstruct scSrc ctr2).1.pQueueFamilyIndices).map Alloc.val
        = (if scSrc.imageSharingMode = VK_SHARING_MODE_CONCURRENT
           then scSrc.pQueueFamilyIndices else none).map
            (fun mem => (List.range scSrc.queueFamilyIndexCount).map mem) := by
  obtain ⟨st, pn, wc, ws, sc, sw, ii, rs⟩ := src
  obtain ⟨sst, spn, sfl, ssu, smi, simf, sics, sie, sial, siu, sism, sqc, sqp, spt,
    sca, spm, scl, sos⟩ := scSrc
  refine ⟨?_, ?_, ?_, ?_, ?_⟩
  · cases pn <;> cases ws <;> cases sw <;> cases ii <;> cases rs <;>
      (simp only [presentConstruct, SafePnextCopy] <;> (try split) <;> simp_all)
  · cases pn <;> cases ws <;> cases sw <;> cases ii <;> cases rs <;>
      (simp only [presentConstruct, SafePnextCopy] <;> (try split) <;> simp_all)
  · cases pn <;> cases ws <;> cases sw <;> cases ii <;> cases rs <;>
      (simp only [presentConstruct, SafePnextCopy] <;> (try split) <;> simp_all)
  · cases pn <;> cases ws <;> cases sw <;> cases ii <;> cases rs <;>
      (simp only [presentConstruct, SafePnextCopy] <;> (try split) <;> simp_all)
  · cases spn <;> cases sqp <;>
      (simp only [swapchainConstruct, SafePnextCopy] <;> (try split) <;> simp_all)

namespace vk_safe

/-- After popping key `k`, the table holds no entry for `k`. -/
theorem tableFind_pop_self (t : HostAllocTable) (k : Nat) :
    tableFind (tablePop t k).2 k = none := by
  rw [tablePop]
  induction t with
  | nil => rfl
  | cons hd tl ih =>
    rw [List.filter_cons]
    by_cases h : hd.1 = k
    · simpa [h] using ih
    · simpa [tableFind, h] using ih

/-- Popping key `k` leaves lookups of any other key unchanged. -/
theorem tableFind_pop_other (t : HostAllocTable) (k k' : Nat) (h : k' ≠ k) :
    tableFind (tablePop t k).2 k' = tableFind t k' := by
  rw [tablePop]
  induction t with
  | nil => rfl
  | cons hd tl ih =>
    rw [List.filter_cons]
    by_cases hh : hd.1 = k
    · have hk : ¬ hd.1 = k' := by
        rw [hh]
        exact fun hc => h hc.symm
      rw [if_neg (by simp [hh])]
      conv_rhs => rw [tableFind]
      rw [if_neg hk]
      exact ih
    · rw [if_pos (by simp [hh])]
      by_cases hk : hd.1 = k'
      · rw [tableFind, if_pos hk]
        conv_rhs => rw [tableFind]
        rw [if_pos hk]
      · rw [tableFind, if_neg hk]
        conv_rhs => rw [tableFind]
        rw [if_neg hk]
        exact ih

/-- Inserting under a key the table does not contain makes lookup of that
key return the inserted value. -/
theorem tableFind_insert_absent (t : HostAllocTable) (k : Nat)
    (v : ASGeomKHRExtraData) (h : tableFind t k = none) :
    tableFind (tableInsert t k v) k = some v := by
  rw [tableInsert, h]
  simp [tableFind]

/-- Inserting under a key the table already contains leaves the table
unchanged (`emplace` semantics). -/
theorem tableInsert_present (t : HostAllocTable) (k : Nat)
    (v e : ASGeomKHRExtraData) (h : tableFind t k = some e) :
    tableInsert t k v = t := by
  rw [tableInsert, h]

/-- The table left by `initialize` from a raw structure holds, for the
reinitialized instance, exactly the freshly registered entry in host mode
with instances geometry, and nothing otherwise. -/
theorem geomInitialize_table (selfId : Nat)
    (self : safe_VkAccelerationStructureGeometryKHR)
    (in_struct : VkAccelerationStructureGeometryKHR) (is_host : Bool)
    (bri : VkAccelerationStructureBuildRangeInfoKHR)
    (table : HostAllocTable) (ctr : Nat) :
    tableFind (geomInitialize selfId self in_struct is_host bri table ctr).2.1 selfId
      = (if is_host ∧ in_struct.geometryType = VK_GEOMETRY_TYPE_INSTANCES_KHR
         then some ⟨(SafePnextCopy in_struct.pNext ctr).2,
                    bri.primitiveOffset, bri.primitiveCount⟩
         else none) := by
  obtain ⟨st, pn, gt, geo, flg⟩ := in_struct
  have hfnone : tableFind (tablePop table selfId).2 selfId = none :=
    tableFind_pop_self table selfId
  cases pn <;>
    (simp only [geomInitialize, SafePnextCopy]
     <;> (try split) <;> (try split) <;>
     first
       | exact tableFind_insert_absent _ _ _ hfnone
       | exact hfnone)

/-- `initialize` from a raw structure frees the buffer of the instance's
prior side-table entry. -/
theorem geomInitialize_freed (selfId : Nat)
    (self : safe_VkAccelerationStructureGeometryKHR)
    (in_struct : VkAccelerationStructureGeometryKHR) (is_host : Bool)
    (bri : VkAccelerationStructureBuildRangeInfoKHR)
    (table : HostAllocTable) (ctr : Nat) (e : ASGeomKHRExtraData)
    (hse : tableFind table selfId = some e) :
    e.ptr ∈ (geomInitialize selfId self in_struct is_host bri table ctr).2.2.1 := by
  obtain ⟨st, pn, gt, geo, flg⟩ := in_struct
  cases pn <;>
    (simp only [geomInitialize, SafePnextCopy, tablePop, hse]
     <;> (try split) <;> (try split) <;> simp)

/-- The table left by `operator=` from a distinct source holds, for the
assigned instance, exactly an entry rebuilt from the source's entry
(when one exists). -/
theorem geomAssign_table (selfId copySrcId : Nat)
    (self copy_src : safe_VkAccelerationStructureGeometryKHR)
    (table : HostAllocTable) (ctr : Nat) (hne : selfId ≠ copySrcId) :
    tableFind (geomAssign selfId self copySrcId copy_src table ctr).2.1 selfId
      = (tableFind table copySrcId).map
          (fun s => ⟨(SafePnextCopyOwned copy_src.pNext ctr).2,
                     s.primitiveOffset, s.primitiveCount⟩) := by
  obtain ⟨cst, cpn, cgt, cgeo, cflg⟩ := copy_src
  have hfnone : tableFind (tablePop table selfId).2 selfId = none :=
    tableFind_pop_self table selfId
  have hother : tableFind (tablePop table selfId).2 copySrcId
      = tableFind table copySrcId :=
    tableFind_pop_other table selfId copySrcId (fun hc => hne hc.symm)
  rw [← hother]
  cases cpn <;>
    (simp only [geomAssign, if_neg hne, SafePnextCopyOwned]
     <;> rcases hfs : tableFind (tablePop table selfId).2 copySrcId with _ | s
     <;> simp only [hfs, Option.map_none, Option.map_some]
     <;> (try split) <;>
     first
       | exact tableFind_insert_absent _ _ _ hfnone
       | exact hfnone)

/-- `operator=` from a distinct source frees the buffer of the assigned
instance's prior side-table entry. -/
theorem geomAssign_freed (selfId copySrcId : Nat)
    (self copy_src : safe_VkAccelerationStructureGeometryKHR)
    (table : HostAllocTable) (ctr : Nat) (e : ASGeomKHRExtraData)
    (hse : tableFind table selfId = some e) (hne : selfId ≠ copySrcId) :
    e.ptr ∈ (geomAssign selfId self copySrcId copy_src table ctr).2.2.1 := by
  obtain ⟨cst, cpn, cgt, cgeo, cflg⟩ := copy_src
  cases cpn <;>
    (simp only [geomAssign, if_neg hne, SafePnextCopyOwned, tablePop, hse]
     <;> rcases hfs : tableFind (List.filter (fun e => e.1 ≠ selfId) table) copySrcId
           with _ | s
     <;> simp [hfs] <;> (try split) <;> simp)

/-- The safe-copy `initialize` overload never disturbs the instance's
pre-existing side-table entry. -/
theorem geomInitializeFromSafe_table (selfId copySrcId : Nat)
    (self copy_src : safe_VkAccelerationStructureGeometryKHR)
    (table : HostAllocTable) (ctr : Nat) (e : ASGeomKHRExtraData)
    (hse : tableFind table selfId = some e) :
    tableFind
      (geomInitializeFromSafe selfId self copySrcId copy_src table ctr).2.1 selfId
      = some e := by
  obtain ⟨cst, cpn, cgt, cgeo, cflg⟩ := copy_src
  cases cpn <;>
    (simp only [geomInitializeFromSafe, SafePnextCopyOwned]
     <;> rcases hfs : tableFind table copySrcId with _ | s
     <;> simp only [hfs] <;> (try split) <;>
     simp [tableInsert_present _ _ _ _ hse, hse])

/-- The safe-copy `initialize` overload frees nothing. -/
theorem geomInitializeFromSafe_freed (selfId copySrcId : Nat)
    (self copy_src : safe_VkAccelerationStructureGeometryKHR)
    (table : HostAllocTable) (ctr : Nat) :
    (geomInitializeFromSafe selfId self copySrcId copy_src table ctr).2.2.1 = [] := by
  obtain ⟨cst, cpn, cgt, cgeo, cflg⟩ := copy_src
  cases cpn <;>
    (simp only [geomInitializeFromSafe, SafePnextCopyOwned]
     <;> rcases hfs : tableFind table copySrcId with _ | s
     <;> simp only [hfs] <;> (try split) <;> simp)

end vk_safe

/-- A concrete safe geometry instance (identity 1) whose side-table entry is
allocation 0 with offset 4 and count 2. -/
def exC2Self : vk_safe.safe_VkAccelerationStructureGeometryKHR :=
  { sType := 1000150006, pNext := none
    geometryType := vk_safe.VK_GEOMETRY_TYPE_INSTANCES_KHR
    geometry := ⟨false, 0⟩, flags := 0 }

/-- A concrete safe geometry source (identity 2) with no side-table entry. -/
def exC2Src : vk_safe.safe_VkAccelerationStructureGeometryKHR :=
  { sType := 1000150006, pNext := none
    geometryType := vk_safe.VK_GEOMETRY_TYPE_INSTANCES_KHR
    geometry := ⟨false, 99⟩, flags := 0 }

/-- The concrete side table holding instance 1's entry. -/
def exC2Table : vk_safe.HostAllocTable := [(1, ⟨0, 4, 2⟩)]

open vk_safe in
/-- Counterexample to C2: reinitializing instance 1 (which owns side-table
entry {buffer 0, offset 4, count 2}) from safe copy 2 leaves that entry in
the table and frees nothing — the claim that the safe-copy `initialize`
overload removes the instance's side-table entry and frees its buffer is
false. -/
theorem claim_C2_counterexample :
    tableFind exC2Table 1 = some ⟨0, 4, 2⟩
    ∧ tableFind (geomInitializeFromSafe 1 exC2Self 2 exC2Src exC2Table 9).2.1 1
        = some ⟨0, 4, 2⟩
    ∧ (geomInitializeFromSafe 1 exC2Self 2 exC2Src exC2Table 9).2.2.1 = [] := by
  refine ⟨rfl, rfl, rfl⟩

open vk_safe in
/-- C2 (amended): destroy, `initialize` from a raw structure, and
reassignment from a distinct source each free the buffer of the instance's
existing side-table entry and remove that entry, leaving for the instance
at most a newly registered entry describing the new contents; the
safe-copy `initialize` overload frees nothing and leaves the instance's
pre-existing side-table entry in place. -/
theorem claim_C2_amended (selfId copySrcId : Nat)
    (self copy_src : safe_VkAccelerationStructureGeometryKHR)
    (in_struct : VkAccelerationStructureGeometryKHR) (is_host : Bool)
    (bri : VkAccelerationStructureBuildRangeInfoKHR)
    (table : HostAllocTable) (ctr : Nat) (e : ASGeomKHRExtraData)
    (hse : tableFind table selfId = some e) (hne : selfId ≠ copySrcId) :
    (tableFind (geomDestroy selfId self table).1 selfId = none
     ∧ e.ptr ∈ (geomDestroy selfId self table).2)
    ∧ (e.ptr ∈ (geomInitialize selfId self in_struct is_host bri table ctr).2.2.1
       ∧ tableFind (geomInitialize selfId self in_struct is_host bri table ctr).2.1 selfId
           = (if is_host ∧ in_struct.geometryType = VK_GEOMETRY_TYPE_INSTANCES_KHR
              then some ⟨(SafePnextCopy in_struct.pNext ctr).2,
                         bri.primitiveOffset, bri.primitiveCount⟩
              else none))
    ∧ (e.ptr ∈ (geomAssign selfId self copySrcId copy_src table ctr).2.2.1
       ∧ tableFind (geomAssign selfId self copySrcId copy_src table ctr).2.1 selfId
           = (tableFind table copySrcId).map
               (fun s => ⟨(SafePnextCopyOwned copy_src.pNext ctr).2,
                          s.primitiveOffset, s.primitiveCount⟩))
    ∧ ((geomInitializeFromSafe selfId self copySrcId copy_src table ctr).2.2.1 = []
       ∧ tableFind (geomInitializeFromSafe selfId self copySrcId copy_src table ctr).2.1
           selfId = some e) := by
  refine ⟨⟨?_, ?_⟩,
    ⟨geomInitialize_freed selfId self in_struct is_host bri table ctr e hse,
     geomInitialize_table selfId self in_struct is_host bri table ctr⟩,
    ⟨geomAssign_freed selfId copySrcId self copy_src table ctr e hse hne,
     geomAssign_table selfId copySrcId self copy_src table ctr hne⟩,
    geomInitializeFromSafe_freed selfId copySrcId self copy_src table ctr,
    geomInitializeFromSafe_table selfId copySrcId self copy_src table ctr e hse⟩
  · simpa [geomDestroy, tablePop] using tableFind_pop_self table selfId
  · simp [geomDestroy, tablePop, hse]

/-- A concrete raw geometry structure with instances geometry for
reinitializing instance 1. -/
def exC2Raw : vk_safe.VkAccelerationStructureGeometryKHR :=
  { sType := 1000150006, pNext := none
    geometryType := vk_safe.VK_GEOMETRY_TYPE_INSTANCES_KHR
    geometry := ⟨false, 77⟩, flags := 0 }

/-- A concrete build-range: 2 primitives at byte offset 4. -/
def exC2Bri : vk_safe.VkAccelerationStructureBuildRangeInfoKHR :=
  { primitiveCount := 2, primitiveOffset := 4, firstVertex := 0
    transformOffset := 0 }

open vk_safe in
/-- Witness for the amended C2 at instance 1 (side-table entry
{buffer 0, offset 4, count 2}), source 2, host mode. -/
theorem claim_C2_witness :
    (tableFind exC2Table 1 = some ⟨0, 4, 2⟩ ∧ (1 : Nat) ≠ 2)
    ∧ ((tableFind (geomDestroy 1 exC2Self exC2Table).1 1 = none
        ∧ (ASGeomKHRExtraData.mk 0 4 2).ptr ∈ (geomDestroy 1 exC2Self exC2Table).2)
       ∧ ((ASGeomKHRExtraData.mk 0 4 2).ptr
            ∈ (geomInitialize 1 exC2Self exC2Raw true exC2Bri exC2Table 9).2.2.1
          ∧ tableFind
              (geomInitialize 1 exC2Self exC2Raw true exC2Bri exC2Table 9).2.1 1
              = (if (true = true) ∧ exC2Raw.geometryType = VK_GEOMETRY_TYPE_INSTANCES_KHR
                 then some ⟨(SafePnextCopy exC2Raw.pNext 9).2,
                            exC2Bri.primitiveOffset, exC2Bri.primitiveCount⟩
                 else none))
       ∧ ((ASGeomKHRExtraData.mk 0 4 2).ptr
            ∈ (geomAssign 1 exC2Self 2 exC2Src exC2Table 9).2.2.1
          ∧ tableFind (geomAssign 1 exC2Self 2 exC2Src exC2Table 9).2.1 1
              = (tableFind exC2Table 2).map
                  (fun s => ⟨(SafePnextCopyOwned exC2Src.pNext 9).2,
                             s.primitiveOffset, s.primitiveCount⟩))
       ∧ ((geomInitializeFromSafe 1 exC2Self 2 exC2Src exC2Table 9).2.2.1 = []
          ∧ tableFind (geomInitializeFromSafe 1 exC2Self 2 exC2Src exC2Table 9).2.1 1
              = some ⟨0, 4, 2⟩)) :=
  ⟨⟨by decide, by decide⟩,
   claim_C2_amended 1 2 exC2Self exC2Src exC2Raw true exC2Bri exC2Table 9
     ⟨0, 4, 2⟩ (by decide) (by decide)⟩
